import Mathlib

set_option maxRecDepth 100000

/-!
Shallow embedding of `src/grib.py` (GFS retrieval-and-extraction pipeline).

Grids are 2-D arrays of rationals (`List (List ℚ)`).  The fallible parts of
`extract_grib_data` (dispatch-table lookup, field selection, cropping, the
undefined `data_dir` on the non-cropped path) are modelled with `Except`;
the surrounding `try/except` block is modelled by `extract_grib_data`, whose
result is either a saved artifact, a logged error (with the same context
fields the Python `logging.error` call receives), or an exception that
escapes the function (which happens exactly when the handler itself fails
evaluating `var_names[grib_index]`).
-/

namespace GfsPull

/-- The module-level list of output variable names (`var_names` in grib.py). -/
def var_names : List String :=
  ["2_metre_temperature", "surface_pressure", "geopotential_height_200",
   "geopotential_height_500", "geopotential_height_700"]

/-- One 2-D grid of numbers (`numpy` array of shape M x N). -/
abbrev Grid := List (List ℚ)

/-- Selection keyword arguments passed to `grib_file.select` in the dispatch
table: a field name and an optional pressure level. -/
structure SelectKw where
  name : String
  level : Option Nat
deriving DecidableEq, Repr

/-- One decoded GRIB message: its name, level, value grid and coordinate
grids (`grib.values`, `grib.latlons()`). -/
structure GribField where
  name : String
  level : Option Nat
  values : Grid
  lats : Grid
  lons : Grid
deriving DecidableEq, Repr

/-- An open GRIB file handle: its path (`grib_file.name` in pygrib) and the
messages it contains. -/
structure GribFile where
  name : String
  fields : List GribField
deriving DecidableEq, Repr

/-- The dispatch table of `extract_grib_data` (lines 57-63): slot index to
selection criteria.  `none` models the `KeyError` a missing key raises. -/
def dispatch_table : Nat → Option SelectKw
  | 0 => some ⟨"2 metre temperature", none⟩
  | 1 => some ⟨"Surface pressure", none⟩
  | 2 => some ⟨"Geopotential height", some 200⟩
  | 3 => some ⟨"Geopotential height", some 500⟩
  | 4 => some ⟨"Geopotential height", some 700⟩
  | _ => none

/-- `grib_file.select(name=..., level=...)`: all messages whose name matches,
and whose level matches when a level keyword is given. -/
def gribSelect (gf : GribFile) (kw : SelectKw) : List GribField :=
  gf.fields.filter fun f =>
    f.name == kw.name && (match kw.level with
      | none => true
      | some l => f.level == some l)

/-- `grib_lats[:, 0]`: the first column of a 2-D grid. -/
def colZero (m : Grid) : List ℚ := m.map fun row => row.headD 0

/-- `grib_lons[0, :]`: the first row of a 2-D grid. -/
def rowZero (m : Grid) : List ℚ := m.headD []

/-- `np.where((xs >= lo) & (xs <= hi))[0]`: the (ascending) list of indices
of `xs` whose entry lies in the inclusive interval `[lo, hi]`. -/
def inRangeIndices (xs : List ℚ) (lo hi : ℚ) : List Nat :=
  (List.range xs.length).filter fun i =>
    decide (lo ≤ xs.getD i 0) && decide (xs.getD i 0 ≤ hi)

/-- `m[r0 : r1 + 1, c0 : c1 + 1]`: the inclusive rectangular slice of a 2-D
grid from row `r0` to row `r1` and column `c0` to column `c1`. -/
def slice2d (m : Grid) (r0 r1 c0 c1 : Nat) : Grid :=
  ((m.drop r0).take (r1 + 1 - r0)).map fun row => (row.drop c0).take (c1 + 1 - c0)

/-- Lines 79-84 of grib.py with the four bounds as parameters: compute the
in-bounds row indices from the first latitude column and the in-bounds
column indices from the first longitude row, then slice the data from the
minimum to the maximum selected index along each axis.  `none` models the
`ValueError` that `np.min`/`np.max` raise on an empty index set. -/
def cropBounds (data lats lons : Grid) (lat_min lat_max lon_min lon_max : ℚ) :
    Option Grid :=
  let lat_indices := inRangeIndices (colZero lats) lat_min lat_max
  let lon_indices := inRangeIndices (rowZero lons) lon_min lon_max
  match lat_indices.min?, lat_indices.max?, lon_indices.min?, lon_indices.max? with
  | some la, some lb, some ca, some cb => some (slice2d data la lb ca cb)
  | _, _, _, _ => none

/-- The North-American crop of grib.py: `lat_min, lat_max = 15.0, 60.0` and
`lon_min, lon_max = 220.0, 305.0`. -/
def cropNA (data lats lons : Grid) : Option Grid :=
  cropBounds data lats lons 15 60 220 305

/-- `Path(s).name`: the final path component (the characters after the last
slash). -/
def baseName (s : String) : String :=
  String.mk (s.data.foldl (fun acc c => if c = '/' then [] else acc ++ [c]) [])

/-- The exceptions the body of `extract_grib_data` can raise:
`invalidSlot` is the `KeyError` from `dispatch_table[grib_index]`;
`fieldNotFound` is the failure of `.select(...)[0]` when nothing matches;
`noDataInBounds` is the `ValueError` from `np.min`/`np.max` of an empty
index array; `undefinedDataDir` is the `UnboundLocalError` on the
`na_bounds=False` branch, where `data_dir` is referenced without being
assigned. -/
inductive ExtractErr where
  | invalidSlot
  | fieldNotFound
  | noDataInBounds
  | undefinedDataDir
deriving DecidableEq, Repr

/-- The context the `except` handler passes to `logging.error`:
date, zulu, forecast hour, variable name, and the underlying exception. -/
structure LogCtx where
  date : String
  zulu : String
  forecast_hour : String
  var : String
  err : ExtractErr
deriving DecidableEq, Repr

/-- Outcome of one `extract_grib_data` call: an artifact written via
`np.save` (path and contents), an error caught and logged, or an exception
escaping the function. -/
inductive ExtractResult where
  | saved (path : String) (data : Grid)
  | logged (ctx : LogCtx)
  | raised
deriving DecidableEq, Repr

/-- The `try` block of `extract_grib_data` (lines 56-96): resolve the slot
in the dispatch table, select the first matching message, and either crop
to the North-American box and save (na_bounds), or hit the undefined
`data_dir` on the else branch.  On success, returns the destination path
`data/<date>/<baseName>_<var>.npy` and the array passed to `np.save`. -/
def extractBody (gf : GribFile) (grib_index : Nat) (dateStr : String)
    (na_bounds : Bool) : Except ExtractErr (String × Grid) :=
  match dispatch_table grib_index with
  | none => .error .invalidSlot
  | some kw =>
    match gribSelect gf kw with
    | [] => .error .fieldNotFound
    | grib :: _ =>
      let grib_data := grib.values
      if na_bounds then
        match cropNA grib_data grib.lats grib.lons with
        | none => .error .noDataInBounds
        | some cropped_grib_data =>
          let binary_file := "data/" ++ dateStr ++ "/" ++ baseName gf.name
            ++ "_" ++ var_names.getD grib_index "" ++ ".npy"
          .ok (binary_file, cropped_grib_data)
      else
        .error .undefinedDataDir

/-- `extract_grib_data` (lines 43-100): run the body; catch any exception
and log it.  The handler itself evaluates `var_names[grib_index]`, which
raises `IndexError` when the slot is out of range, so in that case the
exception escapes the function (`raised`). -/
def extract_grib_data (gf : GribFile) (grib_index : Nat)
    (dateStr zulu forecast_hour : String) (na_bounds : Bool) : ExtractResult :=
  match extractBody gf grib_index dateStr na_bounds with
  | .ok (p, d) => .saved p d
  | .error e =>
    if h : grib_index < var_names.length then
      .logged ⟨dateStr, zulu, forecast_hour, var_names.get ⟨grib_index, h⟩, e⟩
    else
      .raised

/-! ## The orchestrator (`main`, lines 102-171)

`main` iterates dates x zulus x forecast hours, downloads each GRIB file,
opens it, fans out the five extractions, and optionally deletes the file.
Dates are modelled as day ordinals (`Nat`); the `strftime("%Y%m%d")`
formatting is an external pure function carried in the configuration.
The outside world (S3, the decoder, the filesystem `unlink`) is an
environment of oracles per retrieval key. -/

/-- One (date, cycle, lead hour) triple, identifying one remote object and
one local working file. -/
structure Key where
  date : Nat
  zulu : String
  fh : Nat
deriving DecidableEq, Repr

/-- The configuration surface of `main`: crop flag, cleanup flag,
resolution token, and the date formatter (`strftime("%Y%m%d")`). -/
structure Config where
  na_bounds : Bool
  cleanup : Bool
  resolution : String
  fmt : Nat → String

/-- The external collaborators, per key: whether `s3.download_file`
succeeds, whether `pygrib.open` succeeds (the file decodes), whether
`Path.unlink` succeeds, and the decoded content of the downloaded file. -/
structure Env where
  downloadOk : Key → Bool
  decodeOk : Key → Bool
  unlinkOk : Key → Bool
  gribFile : Key → GribFile

/-- The filesystem as the program sees it: the transient local grib files
present, and the saved `.npy` artifacts (path with contents). -/
structure FState where
  localGrib : List String
  artifacts : List (String × Grid)
deriving DecidableEq, Repr

/-- Observable events of a run, in order: the "Downloading grib file" log,
the download-error log, one extraction outcome per slot, and the
"Deleted processed file" log. -/
inductive Event where
  | downloadLog (k : Key)
  | downloadErr (k : Key)
  | extracted (k : Key) (idx : Nat) (r : ExtractResult)
  | deletedLog (k : Key)
deriving DecidableEq, Repr

/-- The uncaught exceptions of the `main` loop: `pygrib.open` on a corrupt
or unreadable file (line 156, not inside any try) and `Path.unlink` during
cleanup (line 168, not inside any try). -/
inductive AbortErr where
  | decodeError (k : Key)
  | unlinkError (k : Key)
deriving DecidableEq, Repr

/-- `f'{i:03d}'`: decimal representation left-padded with zeros to width 3. -/
def pad3 (n : Nat) : String :=
  let s := Nat.repr n
  String.mk (List.replicate (3 - s.length) '0') ++ s

/-- The local path of the transient grib file
(`date_dir / f'gfs.t{zulu}z.pgrb2.{resolution}.f{forecast_hour}'`). -/
def gribPathOf (cfg : Config) (k : Key) : String :=
  "data/" ++ cfg.fmt k.date ++ "/gfs.t" ++ k.zulu ++ "z.pgrb2."
    ++ cfg.resolution ++ ".f" ++ pad3 k.fh

/-- `np.save`: write the artifact at `path`, replacing an existing entry at
the same path and appending a new entry otherwise. -/
def np_save (store : List (String × Grid)) (path : String) (data : Grid) :
    List (String × Grid) :=
  if store.any (fun e => e.1 == path) then
    store.map fun e => if e.1 == path then (path, data) else e
  else store ++ [(path, data)]

/-- Apply one extraction outcome to the artifact store: only a successful
`np.save` changes it. -/
def applySave (store : List (String × Grid)) : ExtractResult → List (String × Grid)
  | .saved p d => np_save store p d
  | .logged _ => store
  | .raised => store

/-- The per-unit fan-out (lines 158-164): one `extract_grib_data` call per
entry of `var_names`, against the opened grib source.  Each slot's call
depends only on the source and its own index, so the fan-out is listed in
slot order. -/
def runSlots (gf : GribFile) (cfg : Config) (k : Key) : List ExtractResult :=
  (List.range var_names.length).map fun i =>
    extract_grib_data gf i (cfg.fmt k.date) k.zulu (pad3 k.fh) cfg.na_bounds

/-- Process one retrieval unit (the body of the innermost loop of `main`):
log and attempt the download (failure caught: log and continue); open the
file (failure uncaught: abort); run the five extractions; if cleanup is
set, delete the file (failure uncaught: abort).  Returns the new filesystem
state, the events emitted, and the abort, if any. -/
def processUnit (env : Env) (cfg : Config) (s : FState) (k : Key) :
    FState × List Event × Option AbortErr :=
  if env.downloadOk k then
    let path := gribPathOf cfg k
    let s1 : FState := { s with localGrib := s.localGrib.insert path }
    if env.decodeOk k then
      let gf : GribFile := { env.gribFile k with name := path }
      let results := runSlots gf cfg k
      let s2 : FState := { s1 with artifacts := results.foldl applySave s1.artifacts }
      let evs := Event.downloadLog k :: results.enum.map fun p => Event.extracted k p.1 p.2
      if cfg.cleanup then
        if env.unlinkOk k then
          ({ s2 with localGrib := s2.localGrib.erase path },
            evs ++ [Event.deletedLog k], none)
        else (s2, evs, some (.unlinkError k))
      else (s2, evs, none)
    else (s1, [Event.downloadLog k], some (.decodeError k))
  else (s, [Event.downloadLog k, Event.downloadErr k], none)

/-- The events `processUnit` emits for a key; they do not depend on the
filesystem state. -/
def unitEvents (env : Env) (cfg : Config) (k : Key) : List Event :=
  if env.downloadOk k then
    if env.decodeOk k then
      let gf : GribFile := { env.gribFile k with name := gribPathOf cfg k }
      let results := runSlots gf cfg k
      let evs := Event.downloadLog k :: results.enum.map fun p => Event.extracted k p.1 p.2
      if cfg.cleanup then
        if env.unlinkOk k then evs ++ [Event.deletedLog k] else evs
      else evs
    else [Event.downloadLog k]
  else [Event.downloadLog k, Event.downloadErr k]

/-- Run the units for a list of keys in order, sequentially; an uncaught
exception stops the whole loop there. -/
def runUnits (env : Env) (cfg : Config) : FState → List Key → FState × List Event × Option AbortErr
  | s, [] => (s, [], none)
  | s, k :: ks =>
    let p := processUnit env cfg s k
    match p.2.2 with
    | some e => (p.1, p.2.1, some e)
    | none =>
      let r := runUnits env cfg p.1 ks
      (r.1, p.2.1 ++ r.2.1, r.2.2)

/-- `pd.date_range(start=start_date, end=end_date, freq='D')` on day
ordinals: the ascending list of days from `s` to `e` inclusive. -/
def dateRange (s e : Nat) : List Nat :=
  (List.range (e + 1 - s)).map fun i => s + i

/-- `[f'{i:03d}' for i in range(0, 385, 3)]`, kept as numbers: the lead
hours 0, 3, ..., 384. -/
def forecastHours : List Nat :=
  (List.range 129).map fun i => 3 * i

/-- The sequence of retrieval keys `main` processes: dates in range order,
then zulus in the order given, then forecast hours in list order. -/
def mainKeys (s e : Nat) (zulus : List String) : List Key :=
  (dateRange s e).flatMap fun d =>
    zulus.flatMap fun z =>
      forecastHours.map fun h => ⟨d, z, h⟩

/-- The lexicographic processing order the spec requires: earlier date, or
same date and earlier position in the zulu list, or same date and zulu and
smaller lead hour. -/
def keyBefore (zulus : List String) (k1 k2 : Key) : Prop :=
  k1.date < k2.date
    ∨ (k1.date = k2.date ∧ (zulus.indexOf k1.zulu < zulus.indexOf k2.zulu
        ∨ (k1.zulu = k2.zulu ∧ k1.fh < k2.fh)))

/-- The spec's description of the selected indices along one axis: all
positions (within the axis length) whose coordinate lies in the inclusive
interval.  Used to compare the source's crop against the spec's words. -/
def specSelectedIndices (n : Nat) (v : Nat → ℚ) (lo hi : ℚ) : List Nat :=
  (List.range n).filter fun i => decide (lo ≤ v i) && decide (v i ≤ hi)

/-! ## Concrete test fixtures (for witnesses and counterexamples) -/

/-- A 2x2 test message lying entirely inside the North-American box. -/
def testField (nm : String) (lv : Option Nat) : GribField :=
  { name := nm, level := lv
  , values := [[1, 2], [3, 4]]
  , lats := [[20, 20], [30, 30]]
  , lons := [[230, 250], [230, 250]] }

/-- A test file holding messages for slots 0, 1, 3 and 4 but nothing at
200 hPa, so slot 2's selection predicate matches nothing. -/
def testGF : GribFile :=
  { name := "data/20240101/gfs.t00z.pgrb2.1p00.f000"
  , fields := [testField "2 metre temperature" (some 2),
               testField "Surface pressure" (some 0),
               testField "Geopotential height" (some 500),
               testField "Geopotential height" (some 700)] }

/-- An all-succeeding environment serving `testGF` everywhere. -/
def testEnv : Env :=
  { downloadOk := fun _ => true
  , decodeOk := fun _ => true
  , unlinkOk := fun _ => true
  , gribFile := fun _ => testGF }

/-- The default configuration of grib.py (na_bounds and cleanup on,
resolution `1p00`), with a constant date formatter. -/
def testCfg : Config :=
  { na_bounds := true, cleanup := true, resolution := "1p00"
  , fmt := fun _ => "20240101" }

/-- Lead-hour-0 and lead-hour-3 keys of the same cycle. -/
def k1 : Key := ⟨0, "00", 0⟩

def k2 : Key := ⟨0, "00", 3⟩

/-- Environment where the grib file of lead hour 0 is corrupt (decode
fails) but everything else succeeds. -/
def decodeFailEnv : Env :=
  { testEnv with decodeOk := fun k => k.fh != 0 }

/-- Environment where the download of lead hour 0 fails but everything
else succeeds. -/
def dlFailEnv : Env :=
  { testEnv with downloadOk := fun k => k.fh != 0 }

/-- A 3x3 regular grid fixture whose middle latitude equals the lower crop
bound exactly. -/
def data3 : Grid := [[1, 2, 3], [4, 5, 6], [7, 8, 9]]

def lats3 : Grid := [[10, 10, 10], [15, 15, 15], [60, 60, 60]]

def lons3 : Grid := [[220, 250, 310], [220, 250, 310], [220, 250, 310]]

/-- The per-row latitudes of `lats3`. -/
def latv3 : Nat → ℚ := fun i => ([10, 15, 60] : List ℚ).getD i 0

/-- The per-column longitudes of `lons3`. -/
def lonv3 : Nat → ℚ := fun j => ([220, 250, 310] : List ℚ).getD j 0

/-- A column of latitudes that is not monotone: rows 0 and 2 are inside
the North-American box, row 1 (latitude 70) is outside yet lies between
them. -/
def latsX : Grid := [[20], [70], [30]]

def dataX : Grid := [[1], [2], [3]]

def lonsX : Grid := [[230], [230], [230]]

/-! ## Theorems -/

/-- C9: the variable catalog has exactly the five documented slots
(2-metre temperature, surface pressure, geopotential height at 200, 500
and 700 hPa) with the output names of `var_names`; but for a slot index
outside 0-4 the dispatch-table lookup fails (`KeyError`, the `InvalidSlot`
failure) and then the `except` handler itself fails evaluating
`var_names[grib_index]`, so the exception escapes `extract_grib_data`
unlogged instead of being reported. -/
theorem C9_invalid_slot_escapes_unlogged :
    dispatch_table 0 = some ⟨"2 metre temperature", none⟩
    ∧ dispatch_table 1 = some ⟨"Surface pressure", none⟩
    ∧ dispatch_table 2 = some ⟨"Geopotential height", some 200⟩
    ∧ dispatch_table 3 = some ⟨"Geopotential height", some 500⟩
    ∧ dispatch_table 4 = some ⟨"Geopotential height", some 700⟩
    ∧ var_names = ["2_metre_temperature", "surface_pressure",
        "geopotential_height_200", "geopotential_height_500",
        "geopotential_height_700"]
    ∧ (∀ gf : GribFile, ∀ d z fh : String, ∀ nb : Bool,
        dispatch_table 5 = none
        ∧ extractBody gf 5 d nb = .error .invalidSlot
        ∧ extract_grib_data gf 5 d z fh nb = .raised) := by
  refine ⟨rfl, rfl, rfl, rfl, rfl, rfl, fun gf d z fh nb => ⟨rfl, rfl, rfl⟩⟩

/-- C2: with `na_bounds` false, cropping is skipped, but the save never
happens: the else branch references the local `data_dir` without it being
assigned, so the body fails with the undefined-name error, which is caught
and logged; no artifact is ever persisted on this path. -/
theorem C2_full_grid_never_persists (gf : GribFile) (grib_index : Nat)
    (h : grib_index < 5) (d z fh : String) :
    (∀ p arr, extract_grib_data gf grib_index d z fh false ≠ .saved p arr)
    ∧ (∀ kw g gs, dispatch_table grib_index = some kw →
        gribSelect gf kw = g :: gs →
        extractBody gf grib_index d false = .error .undefinedDataDir
        ∧ extract_grib_data gf grib_index d z fh false =
            .logged ⟨d, z, fh, var_names.get ⟨grib_index, h⟩, .undefinedDataDir⟩) := by
  have hlen : grib_index < var_names.length := h
  constructor
  · intro p arr
    unfold extract_grib_data extractBody
    cases hd : dispatch_table grib_index with
    | none => simp [hlen]
    | some kw =>
      cases hs : gribSelect gf kw with
      | nil => simp [hs, hlen]
      | cons g gs => simp [hs, hlen]
  · intro kw g gs hd hs
    have hb : extractBody gf grib_index d false = .error .undefinedDataDir := by
      unfold extractBody
      simp [hd, hs]
    refine ⟨hb, ?_⟩
    unfold extract_grib_data
    rw [hb]
    simp [hlen]

/-- C2 witness: slot 0 of the test file with `na_bounds = false` is caught
and logged as an undefined-name failure, and nothing is saved. -/
theorem C2_witness :
    extract_grib_data testGF 0 "20240101" "00" "000" false
      = .logged ⟨"20240101", "00", "000", "2_metre_temperature", .undefinedDataDir⟩
    ∧ (∀ p arr, extract_grib_data testGF 0 "20240101" "00" "000" false ≠ .saved p arr) :=
  ⟨((C2_full_grid_never_persists testGF 0 (by decide) "20240101" "00" "000").2
      ⟨"2 metre temperature", none⟩ (testField "2 metre temperature" (some 2)) []
      (by decide) (by decide)).2,
   (C2_full_grid_never_persists testGF 0 (by decide) "20240101" "00" "000").1⟩

/-- C4: when the download of a unit fails, the error is caught and logged,
no extraction happens for that triple (no extraction event, filesystem
unchanged), the unit does not abort, and the loop proceeds to the
remaining triples. -/
theorem C4_download_failure_isolated (env : Env) (cfg : Config) (s : FState)
    (k : Key) (ks : List Key) (hdl : env.downloadOk k = false) :
    processUnit env cfg s k = (s, [.downloadLog k, .downloadErr k], none)
    ∧ runUnits env cfg s (k :: ks) =
        ((runUnits env cfg s ks).1,
         Event.downloadLog k :: Event.downloadErr k :: (runUnits env cfg s ks).2.1,
         (runUnits env cfg s ks).2.2) := by
  have h1 : processUnit env cfg s k = (s, [.downloadLog k, .downloadErr k], none) := by
    unfold processUnit
    simp [hdl]
  refine ⟨h1, ?_⟩
  simp only [runUnits, h1]
  rfl

/-- C4 witness: with the download of lead hour 0 failing, unit (0,"00",0)
only logs, changes nothing, and the run moves on to (0,"00",3). -/
theorem C4_witness :
    dlFailEnv.downloadOk k1 = false
    ∧ processUnit dlFailEnv testCfg ⟨[], []⟩ k1
        = (⟨[], []⟩, [.downloadLog k1, .downloadErr k1], none)
    ∧ runUnits dlFailEnv testCfg ⟨[], []⟩ [k1, k2] =
        ((runUnits dlFailEnv testCfg ⟨[], []⟩ [k2]).1,
         Event.downloadLog k1 :: Event.downloadErr k1 ::
           (runUnits dlFailEnv testCfg ⟨[], []⟩ [k2]).2.1,
         (runUnits dlFailEnv testCfg ⟨[], []⟩ [k2]).2.2) :=
  ⟨rfl,
   (C4_download_failure_isolated dlFailEnv testCfg ⟨[], []⟩ k1 [k2] rfl).1,
   (C4_download_failure_isolated dlFailEnv testCfg ⟨[], []⟩ k1 [k2] rfl).2⟩

/-- C5: for a unit that runs to completion (download and decode succeed,
and the unlink succeeds whenever cleanup asks for it), the transient grib
file is present afterwards if and only if the cleanup flag is off — for
every grib content, hence regardless of individual extraction failures. -/
theorem C5_cleanup_iff (env : Env) (cfg : Config) (s : FState) (k : Key)
    (hdl : env.downloadOk k = true) (hdc : env.decodeOk k = true)
    (hun : cfg.cleanup = true → env.unlinkOk k = true)
    (hnew : gribPathOf cfg k ∉ s.localGrib) :
    (processUnit env cfg s k).2.2 = none
    ∧ ((gribPathOf cfg k ∈ (processUnit env cfg s k).1.localGrib)
        ↔ cfg.cleanup = false) := by
  have hins : s.localGrib.insert (gribPathOf cfg k) = gribPathOf cfg k :: s.localGrib :=
    List.insert_of_not_mem hnew
  cases hc : cfg.cleanup with
  | false => simp [processUnit, hdl, hdc, hc, hins]
  | true =>
    have hu := hun hc
    simp [processUnit, hdl, hdc, hc, hu, hins, List.erase_cons_head, hnew]

/-- C5 witness: with everything succeeding and cleanup on, unit (0,"00",0)
completes and its grib file is absent afterwards. -/
theorem C5_witness :
    (processUnit testEnv testCfg ⟨[], []⟩ k1).2.2 = none
    ∧ ((gribPathOf testCfg k1 ∈ (processUnit testEnv testCfg ⟨[], []⟩ k1).1.localGrib)
        ↔ testCfg.cleanup = false) :=
  C5_cleanup_iff testEnv testCfg ⟨[], []⟩ k1 rfl rfl (fun _ => rfl) (by simp)

/-- A unit does not abort when its download fails (caught) or when its
decode succeeds and, if cleanup is on, its unlink succeeds. -/
theorem processUnit_no_abort (env : Env) (cfg : Config) (s : FState) (k : Key)
    (h : env.downloadOk k = true →
      env.decodeOk k = true ∧ (cfg.cleanup = true → env.unlinkOk k = true)) :
    (processUnit env cfg s k).2.2 = none := by
  by_cases hdl : env.downloadOk k = true
  · obtain ⟨hdc, hun⟩ := h hdl
    by_cases hc : cfg.cleanup = true
    · have hu := hun hc
      simp [processUnit, hdl, hdc, hc, hu]
    · simp [processUnit, hdl, hdc, hc]
  · have hdl2 : env.downloadOk k = false := by simpa using hdl
    simp [processUnit, hdl2]

/-- C3 counterexample: a corrupt grib file (decode failure) at the first
key aborts the whole run — the second key is never reached, refuting the
claim that no post-start error is fatal. -/
theorem C3_counterexample_decode_aborts :
    (runUnits decodeFailEnv testCfg ⟨[], []⟩ [k1, k2]).2.2
      = some (.decodeError k1)
    ∧ Event.downloadLog k2 ∉ (runUnits decodeFailEnv testCfg ⟨[], []⟩ [k1, k2]).2.1 := by
  constructor
  · rfl
  · decide

/-- C3 amended: download failures and per-variable extraction failures
never abort the run (it completes whenever every downloaded file decodes
and, with cleanup on, unlinks), but an error opening the downloaded grib
file, or a filesystem error deleting it during cleanup, is uncaught and
aborts the whole run. -/
theorem C3_amended_post_start_aborts (env : Env) (cfg : Config) :
    (∀ s ks, (∀ k ∈ ks, env.downloadOk k = true →
        env.decodeOk k = true ∧ (cfg.cleanup = true → env.unlinkOk k = true)) →
      (runUnits env cfg s ks).2.2 = none)
    ∧ (∀ s k ks, env.downloadOk k = true → env.decodeOk k = false →
        (runUnits env cfg s (k :: ks)).2.2 = some (.decodeError k))
    ∧ (∀ s k ks, env.downloadOk k = true → env.decodeOk k = true →
        cfg.cleanup = true → env.unlinkOk k = false →
        (runUnits env cfg s (k :: ks)).2.2 = some (.unlinkError k)) := by
  refine ⟨?_, ?_, ?_⟩
  · intro s ks
    induction ks generalizing s with
    | nil => intro _; rfl
    | cons k ks ih =>
      intro h
      have hk : (processUnit env cfg s k).2.2 = none :=
        processUnit_no_abort env cfg s k (h k (List.mem_cons_self k ks))
      simp only [runUnits, hk]
      exact ih (processUnit env cfg s k).1
        (fun k' hk' => h k' (List.mem_cons_of_mem _ hk'))
  · intro s k ks hdl hdc
    have hp : (processUnit env cfg s k).2.2 = some (.decodeError k) := by
      simp [processUnit, hdl, hdc]
    simp only [runUnits, hp]
  · intro s k ks hdl hdc hc hu
    have hp : (processUnit env cfg s k).2.2 = some (.unlinkError k) := by
      simp [processUnit, hdl, hdc, hc, hu]
    simp only [runUnits, hp]

/-- C3 witness for the amended claim: a run whose first download fails and
whose second unit fully succeeds completes without aborting. -/
theorem C3_witness :
    (runUnits dlFailEnv testCfg ⟨[], []⟩ [k1, k2]).2.2 = none :=
  (C3_amended_post_start_aborts dlFailEnv testCfg).1 ⟨[], []⟩ [k1, k2]
    (fun _ _ _ => ⟨rfl, fun _ => rfl⟩)

/-- Saving the same artifact twice at the same path is the same as saving
it once. -/
theorem np_save_idem (s : List (String × Grid)) (p : String) (d : Grid) :
    np_save (np_save s p d) p d = np_save s p d := by
  by_cases hpre : s.any (fun e => e.1 == p) = true
  · unfold np_save
    rw [if_pos hpre]
    obtain ⟨e, he, hep⟩ := List.any_eq_true.mp hpre
    have hany2 : ((s.map fun e => if e.1 == p then (p, d) else e).any
        (fun e => e.1 == p)) = true := by
      rw [List.any_map]
      exact List.any_eq_true.mpr ⟨e, he, by simp [Function.comp, hep]⟩
    rw [if_pos hany2, List.map_map]
    apply List.map_congr_left
    intro e _
    by_cases hep : (e.1 == p) = true
    · simp [Function.comp, hep]
    · simp [Function.comp, hep]
  · have hfalse : s.any (fun e => e.1 == p) = false := by
      rwa [Bool.not_eq_true] at hpre
    have hnone : ∀ e ∈ s, ¬((e.1 == p) = true) := List.any_eq_false.mp hfalse
    unfold np_save
    rw [if_neg hpre]
    have hany2 : ((s ++ [(p, d)]).any (fun e => e.1 == p)) = true := by simp
    rw [if_pos hany2, List.map_append]
    have h1 : (s.map fun e => if e.1 == p then (p, d) else e) = s := by
      calc (s.map fun e => if e.1 == p then (p, d) else e)
          = s.map id := List.map_congr_left (fun e he => by simp [hnone e he])
        _ = s := List.map_id s
    rw [h1]
    simp

/-- Saving at a path absent from the store appends exactly one entry at
that path. -/
theorem np_save_fresh (s : List (String × Grid)) (p : String) (d : Grid)
    (h : ∀ e ∈ s, e.1 ≠ p) :
    np_save s p d = s ++ [(p, d)]
    ∧ (np_save s p d).countP (fun e => e.1 == p) = 1 := by
  have hany : s.any (fun e => e.1 == p) = false := by
    rw [List.any_eq_false]
    intro e he
    simpa using h e he
  have h0 : s.countP (fun e => e.1 == p) = 0 := by
    rw [List.countP_eq_zero]
    intro e he
    simpa using h e he
  constructor
  · simp [np_save, hany]
  · simp [np_save, hany, List.countP_append, h0]

/-- C8: a successful extraction writes to the deterministic path
`data/<date>/<base name of the grib file>_<variable output name>.npy`;
saving there overwrites (applying the same save twice equals applying it
once), and saving at a fresh path leaves exactly one artifact with that
path. -/
theorem C8_deterministic_path_idempotent (gf : GribFile) (grib_index : Nat)
    (h : grib_index < 5) (d z fh : String) (p : String) (arr : Grid)
    (hsv : extract_grib_data gf grib_index d z fh true = .saved p arr) :
    p = "data/" ++ d ++ "/" ++ baseName gf.name ++ "_"
        ++ var_names.getD grib_index "" ++ ".npy"
    ∧ (∀ s, applySave (applySave s (.saved p arr)) (.saved p arr)
        = applySave s (.saved p arr))
    ∧ (∀ s, (∀ e ∈ s, e.1 ≠ p) →
        applySave s (.saved p arr) = s ++ [(p, arr)]
        ∧ (applySave s (.saved p arr)).countP (fun e => e.1 == p) = 1) := by
  have hlen : grib_index < var_names.length := h
  refine ⟨?_, fun s => np_save_idem s p arr, fun s hs => np_save_fresh s p arr hs⟩
  unfold extract_grib_data extractBody at hsv
  cases hd : dispatch_table grib_index with
  | none => simp only [hd] at hsv; simp [hlen] at hsv
  | some kw =>
    simp only [hd] at hsv
    cases hsel : gribSelect gf kw with
    | nil => simp only [hsel] at hsv; simp [hlen] at hsv
    | cons g gs =>
      simp only [hsel] at hsv
      cases hcrop : cropNA g.values g.lats g.lons with
      | none => simp only [hcrop] at hsv; simp [hlen] at hsv
      | some cropped =>
        simp only [hcrop, if_true] at hsv
        simp only [ExtractResult.saved.injEq] at hsv
        exact hsv.1.symm

/-- C8 witness: slot 0 of the test file saves at the path built from the
grib file's base name and the variable's output name. -/
theorem C8_witness :
    extract_grib_data testGF 0 "20240101" "00" "000" true
      = .saved "data/20240101/gfs.t00z.pgrb2.1p00.f000_2_metre_temperature.npy"
          [[1, 2], [3, 4]]
    ∧ "data/20240101/gfs.t00z.pgrb2.1p00.f000_2_metre_temperature.npy"
      = "data/" ++ "20240101" ++ "/" ++ baseName testGF.name ++ "_"
        ++ var_names.getD 0 "" ++ ".npy" :=
  ⟨by decide,
   (C8_deterministic_path_idempotent testGF 0 (by decide) "20240101" "00" "000"
      "data/20240101/gfs.t00z.pgrb2.1p00.f000_2_metre_temperature.npy"
      [[1, 2], [3, 4]] (by decide)).1⟩

/-- C1: for slots 0-4, every failure of the extraction body is caught and
logged with date, cycle, lead hour and variable name; `extract_grib_data`
never lets an exception escape for these slots; and a slot's outcome
depends only on its own selection result (and the file's name), so a
failure in a sibling slot cannot prevent this slot's artifact. -/
theorem C1_failure_isolation (gf gf' : GribFile) (grib_index : Nat)
    (h : grib_index < 5) (d z fh : String) (nb : Bool) :
    (∀ e, extractBody gf grib_index d nb = .error e →
      extract_grib_data gf grib_index d z fh nb
        = .logged ⟨d, z, fh, var_names.get ⟨grib_index, h⟩, e⟩)
    ∧ extract_grib_data gf grib_index d z fh nb ≠ .raised
    ∧ (gf'.name = gf.name →
      (∀ kw, dispatch_table grib_index = some kw →
        gribSelect gf' kw = gribSelect gf kw) →
      extract_grib_data gf' grib_index d z fh nb
        = extract_grib_data gf grib_index d z fh nb) := by
  have hlen : grib_index < var_names.length := h
  have part1 : ∀ e, extractBody gf grib_index d nb = .error e →
      extract_grib_data gf grib_index d z fh nb
        = .logged ⟨d, z, fh, var_names.get ⟨grib_index, hlen⟩, e⟩ := by
    intro e he
    unfold extract_grib_data
    rw [he]
    simp [hlen]
  refine ⟨part1, ?_, ?_⟩
  · cases hb : extractBody gf grib_index d nb with
    | ok v =>
      unfold extract_grib_data
      rw [hb]
      cases v
      simp
    | error e =>
      rw [part1 e hb]
      simp
  · intro hn hsel
    unfold extract_grib_data extractBody
    cases hd : dispatch_table grib_index with
    | none => rfl
    | some kw =>
      dsimp only
      rw [hsel kw hd, hn]

/-- C1 witness: on the test file, slot 2 (whose predicate matches nothing)
is caught and logged with full context and nothing escapes, while the
sibling slots 0, 1, 3, 4 all produce their artifacts. -/
theorem C1_witness :
    extract_grib_data testGF 2 "20240101" "00" "000" true
      = .logged ⟨"20240101", "00", "000", "geopotential_height_200", .fieldNotFound⟩
    ∧ extract_grib_data testGF 2 "20240101" "00" "000" true ≠ .raised
    ∧ extract_grib_data testGF 0 "20240101" "00" "000" true
      = .saved "data/20240101/gfs.t00z.pgrb2.1p00.f000_2_metre_temperature.npy"
          [[1, 2], [3, 4]]
    ∧ extract_grib_data testGF 1 "20240101" "00" "000" true
      = .saved "data/20240101/gfs.t00z.pgrb2.1p00.f000_surface_pressure.npy"
          [[1, 2], [3, 4]]
    ∧ extract_grib_data testGF 3 "20240101" "00" "000" true
      = .saved "data/20240101/gfs.t00z.pgrb2.1p00.f000_geopotential_height_500.npy"
          [[1, 2], [3, 4]]
    ∧ extract_grib_data testGF 4 "20240101" "00" "000" true
      = .saved "data/20240101/gfs.t00z.pgrb2.1p00.f000_geopotential_height_700.npy"
          [[1, 2], [3, 4]] :=
  ⟨(C1_failure_isolation testGF testGF 2 (by decide) "20240101" "00" "000" true).1
      .fieldNotFound rfl,
   (C1_failure_isolation testGF testGF 2 (by decide) "20240101" "00" "000" true).2.1,
   by decide, by decide, by decide, by decide⟩

/-- The in-range index computation agrees with the spec-side selection
when the list entries agree with the abstract coordinate function. -/
theorem inRangeIndices_eq (xs : List ℚ) (v : Nat → ℚ) (lo hi : ℚ)
    (hx : ∀ i, i < xs.length → xs.getD i 0 = v i) :
    inRangeIndices xs lo hi = specSelectedIndices xs.length v lo hi := by
  unfold inRangeIndices specSelectedIndices
  apply List.filter_congr
  intro i hi
  rw [List.mem_range] at hi
  rw [hx i hi]

/-- Entry `i` of the first column of a grid is the head of row `i`. -/
theorem colZero_getD (lats : Grid) (i : Nat) (hi : i < lats.length) :
    (colZero lats).getD i 0 = (lats.getD i []).headD 0 := by
  have hi2 : i < (colZero lats).length := by simpa [colZero] using hi
  rw [List.getD_eq_getElem _ _ hi2, List.getD_eq_getElem _ _ hi]
  simp [colZero]

/-- C6: on a regular grid (latitude constant along each row, longitude
constant along each column) with at least one in-bounds row latitude and
one in-bounds column longitude, the crop selects rows and columns by
inclusive comparison against the bounds and returns the slice from the
minimum to the maximum selected index along each axis. -/
theorem C6_crop_regular_grid (data lats lons : Grid) (latv lonv : Nat → ℚ)
    (lat_min lat_max lon_min lon_max : ℚ)
    (hlat : ∀ i, i < lats.length → ∀ x ∈ lats.getD i [], x = latv i)
    (hlatne : ∀ row ∈ lats, row ≠ [])
    (hlon : ∀ row ∈ lons, ∀ j, j < row.length → row.getD j 0 = lonv j)
    (hlat_ex : ∃ i, i < lats.length ∧ lat_min ≤ latv i ∧ latv i ≤ lat_max)
    (hlon_ex : ∃ j, j < (rowZero lons).length ∧ lon_min ≤ lonv j ∧ lonv j ≤ lon_max) :
    ∃ r0 r1 c0 c1,
      (specSelectedIndices lats.length latv lat_min lat_max).min? = some r0
      ∧ (specSelectedIndices lats.length latv lat_min lat_max).max? = some r1
      ∧ (specSelectedIndices (rowZero lons).length lonv lon_min lon_max).min? = some c0
      ∧ (specSelectedIndices (rowZero lons).length lonv lon_min lon_max).max? = some c1
      ∧ cropBounds data lats lons lat_min lat_max lon_min lon_max
          = some (slice2d data r0 r1 c0 c1)
      ∧ (∀ i, i < lats.length →
          (i ∈ specSelectedIndices lats.length latv lat_min lat_max
            ↔ lat_min ≤ latv i ∧ latv i ≤ lat_max))
      ∧ (∀ j, j < (rowZero lons).length →
          (j ∈ specSelectedIndices (rowZero lons).length lonv lon_min lon_max
            ↔ lon_min ≤ lonv j ∧ lonv j ≤ lon_max)) := by
  have hlat2 : ∀ i, i < (colZero lats).length → (colZero lats).getD i 0 = latv i := by
    intro i hi
    have hi2 : i < lats.length := by simpa [colZero] using hi
    rw [colZero_getD lats i hi2]
    have hmem : lats.getD i [] ∈ lats := by
      rw [List.getD_eq_getElem _ _ hi2]
      exact List.getElem_mem hi2
    have hne := hlatne _ hmem
    cases hr : lats.getD i [] with
    | nil => exact absurd hr hne
    | cons x t =>
      have hx : x ∈ lats.getD i [] := by
        rw [hr]
        exact List.mem_cons_self x t
      have := hlat i hi2 x hx
      simpa using this
  have hlon2 : ∀ j, j < (rowZero lons).length → (rowZero lons).getD j 0 = lonv j := by
    intro j hj
    cases hl : lons with
    | nil =>
      rw [hl] at hj
      simp [rowZero] at hj
    | cons r rs =>
      simp only [rowZero, List.headD_cons]
      refine hlon r ?_ j ?_
      · rw [hl]
        exact List.mem_cons_self r rs
      · rw [hl] at hj
        simpa [rowZero] using hj
  have hlenc : (colZero lats).length = lats.length := by simp [colZero]
  have hA := inRangeIndices_eq (colZero lats) latv lat_min lat_max hlat2
  rw [hlenc] at hA
  have hB := inRangeIndices_eq (rowZero lons) lonv lon_min lon_max hlon2
  obtain ⟨i0, hi0, hi0a, hi0b⟩ := hlat_ex
  have hi0mem : i0 ∈ specSelectedIndices lats.length latv lat_min lat_max := by
    unfold specSelectedIndices
    rw [List.mem_filter]
    exact ⟨List.mem_range.mpr hi0, by simp [hi0a, hi0b]⟩
  obtain ⟨j0, hj0, hj0a, hj0b⟩ := hlon_ex
  have hj0mem : j0 ∈ specSelectedIndices (rowZero lons).length lonv lon_min lon_max := by
    unfold specSelectedIndices
    rw [List.mem_filter]
    exact ⟨List.mem_range.mpr hj0, by simp [hj0a, hj0b]⟩
  obtain ⟨r0, hr0⟩ := Option.isSome_iff_exists.mp (List.isSome_min?_of_mem hi0mem)
  obtain ⟨r1, hr1⟩ := Option.isSome_iff_exists.mp (List.isSome_max?_of_mem hi0mem)
  obtain ⟨c0, hc0⟩ := Option.isSome_iff_exists.mp (List.isSome_min?_of_mem hj0mem)
  obtain ⟨c1, hc1⟩ := Option.isSome_iff_exists.mp (List.isSome_max?_of_mem hj0mem)
  refine ⟨r0, r1, c0, c1, hr0, hr1, hc0, hc1, ?_, ?_, ?_⟩
  · simp only [cropBounds]
    rw [hA, hB, hr0, hr1, hc0, hc1]
  · intro i hi
    unfold specSelectedIndices
    rw [List.mem_filter, List.mem_range]
    simp [hi]
  · intro j hj
    unfold specSelectedIndices
    rw [List.mem_filter, List.mem_range]
    simp [hj]

/-- C6 witness: on the 3x3 regular grid whose middle latitude is exactly
the lower bound 15, cropping to [15, 60] x [220, 305] keeps rows 1-2 and
columns 0-1 (boundary rows/columns included). -/
theorem C6_witness :
    cropBounds data3 lats3 lons3 15 60 220 305 = some [[4, 5], [7, 8]]
    ∧ ∃ r0 r1 c0 c1,
      (specSelectedIndices lats3.length latv3 15 60).min? = some r0
      ∧ (specSelectedIndices lats3.length latv3 15 60).max? = some r1
      ∧ (specSelectedIndices (rowZero lons3).length lonv3 220 305).min? = some c0
      ∧ (specSelectedIndices (rowZero lons3).length lonv3 220 305).max? = some c1
      ∧ cropBounds data3 lats3 lons3 15 60 220 305
          = some (slice2d data3 r0 r1 c0 c1)
      ∧ (∀ i, i < lats3.length →
          (i ∈ specSelectedIndices lats3.length latv3 15 60
            ↔ 15 ≤ latv3 i ∧ latv3 i ≤ 60))
      ∧ (∀ j, j < (rowZero lons3).length →
          (j ∈ specSelectedIndices (rowZero lons3).length lonv3 220 305
            ↔ 220 ≤ lonv3 j ∧ lonv3 j ≤ 305)) :=
  ⟨by decide,
   C6_crop_regular_grid data3 lats3 lons3 latv3 lonv3 15 60 220 305
     (by decide) (by decide) (by decide)
     ⟨1, by decide, by decide, by decide⟩
     ⟨0, by decide, by decide, by decide⟩⟩

/-- C10: the North-American crop reduces the in-bounds index sets to their
extremes only: its result is the contiguous rectangle from the minimum to
the maximum selected row and column, computed solely from the first
latitude column and the first longitude row, and every row between the
extreme selected rows appears in the output even when its own latitude is
out of bounds. -/
theorem C10_crop_contiguous_rectangle (data lats lons lats2 lons2 : Grid)
    (a b c e : Nat)
    (hla : (inRangeIndices (colZero lats) 15 60).min? = some a)
    (hlb : (inRangeIndices (colZero lats) 15 60).max? = some b)
    (hca : (inRangeIndices (rowZero lons) 220 305).min? = some c)
    (hcb : (inRangeIndices (rowZero lons) 220 305).max? = some e) :
    cropNA data lats lons = some (slice2d data a b c e)
    ∧ (colZero lats2 = colZero lats → rowZero lons2 = rowZero lons →
        cropNA data lats2 lons2 = cropNA data lats lons)
    ∧ (∀ i, a ≤ i → i ≤ b → i < data.length →
        (slice2d data a b c e).getD (i - a) []
          = ((data.getD i []).drop c).take (e + 1 - c)) := by
  refine ⟨?_, ?_, ?_⟩
  · simp only [cropNA, cropBounds]
    rw [hla, hlb, hca, hcb]
  · intro h1 h2
    simp only [cropNA, cropBounds]
    rw [h1, h2]
  · intro i hai hib hilen
    have hlt : i - a < b + 1 - a := by omega
    unfold slice2d
    rw [List.getD_eq_getElem?_getD, List.getElem?_map,
      List.getElem?_take_of_lt hlt, List.getElem?_drop]
    have hia : a + (i - a) = i := by omega
    rw [hia, List.getElem?_eq_getElem hilen, List.getD_eq_getElem _ _ hilen]
    rfl

/-- C10 witness: with the non-monotone latitude column [20, 70, 30], rows
0 and 2 are selected, and the out-of-bounds middle row (latitude 70) is
still part of the cropped output. -/
theorem C10_witness :
    cropNA dataX latsX lonsX = some (slice2d dataX 0 2 0 0)
    ∧ cropNA dataX latsX lonsX = some [[1], [2], [3]]
    ∧ (slice2d dataX 0 2 0 0).getD (1 - 0) [] = ((dataX.getD 1 []).drop 0).take (0 + 1 - 0)
    ∧ (colZero latsX).getD 1 0 = 70
    ∧ ¬((15 : ℚ) ≤ 70 ∧ (70 : ℚ) ≤ 60) :=
  ⟨(C10_crop_contiguous_rectangle dataX latsX lonsX latsX lonsX 0 2 0 0
      (by decide) (by decide) (by decide) (by decide)).1,
   by decide,
   (C10_crop_contiguous_rectangle dataX latsX lonsX latsX lonsX 0 2 0 0
      (by decide) (by decide) (by decide) (by decide)).2.2 1
      (by decide) (by decide) (by decide),
   by decide, by decide⟩

/-- The date range is strictly ascending. -/
theorem dateRange_pairwise (s e : Nat) : List.Pairwise (· < ·) (dateRange s e) := by
  unfold dateRange
  rw [List.pairwise_map]
  exact (List.pairwise_lt_range _).imp fun hab => by omega

/-- The forecast hours 0, 3, ..., 384 are strictly ascending. -/
theorem forecastHours_pairwise : List.Pairwise (· < ·) forecastHours := by
  unfold forecastHours
  rw [List.pairwise_map]
  exact (List.pairwise_lt_range _).imp fun hab => by omega

/-- In a duplicate-free list, positions order the elements by `indexOf`. -/
theorem indexOf_pairwise_of_nodup (l : List String) (h : l.Nodup) :
    l.Pairwise (fun a b => l.indexOf a < l.indexOf b) := by
  rw [List.pairwise_iff_getElem]
  intro i j hi hj hij
  rw [List.indexOf_getElem h i hi, List.indexOf_getElem h j hj]
  exact hij

/-- The keys of a run are pairwise in the date-then-cycle-then-lead-hour
order, provided the cycle list has no duplicates. -/
theorem mainKeys_pairwise (s e : Nat) (zulus : List String) (hnd : zulus.Nodup) :
    List.Pairwise (keyBefore zulus) (mainKeys s e zulus) := by
  unfold mainKeys
  rw [List.pairwise_flatMap]
  constructor
  · intro d _
    rw [List.pairwise_flatMap]
    constructor
    · intro z _
      rw [List.pairwise_map]
      exact forecastHours_pairwise.imp fun hab => Or.inr ⟨rfl, Or.inr ⟨rfl, hab⟩⟩
    · refine (indexOf_pairwise_of_nodup zulus hnd).imp ?_
      intro z1 z2 hz x hx y hy
      obtain ⟨h1, _, rfl⟩ := List.mem_map.mp hx
      obtain ⟨h2, _, rfl⟩ := List.mem_map.mp hy
      exact Or.inr ⟨rfl, Or.inl hz⟩
  · refine (dateRange_pairwise s e).imp ?_
    intro d1 d2 hd x hx y hy
    obtain ⟨z1, _, hx2⟩ := List.mem_flatMap.mp hx
    obtain ⟨h1, _, rfl⟩ := List.mem_map.mp hx2
    obtain ⟨z2, _, hy2⟩ := List.mem_flatMap.mp hy
    obtain ⟨h2, _, rfl⟩ := List.mem_map.mp hy2
    exact Or.inl hd

/-- The events a unit emits do not depend on the filesystem state. -/
theorem processUnit_events (env : Env) (cfg : Config) (st : FState) (k : Key) :
    (processUnit env cfg st k).2.1 = unitEvents env cfg k := by
  by_cases hdl : env.downloadOk k = true
  · by_cases hdc : env.decodeOk k = true
    · by_cases hc : cfg.cleanup = true
      · by_cases hu : env.unlinkOk k = true
        · simp [processUnit, unitEvents, hdl, hdc, hc, hu]
        · simp [processUnit, unitEvents, hdl, hdc, hc, hu]
      · simp [processUnit, unitEvents, hdl, hdc, hc]
    · simp [processUnit, unitEvents, hdl, hdc]
  · simp [processUnit, unitEvents, hdl]

/-- In an abort-free run the event trace is exactly the concatenation of
the complete per-unit event blocks, in key order: each unit runs to
completion before the next one starts. -/
theorem runUnits_events_concat (env : Env) (cfg : Config) :
    ∀ (ks : List Key) (st : FState),
      (∀ k ∈ ks, env.downloadOk k = true →
        env.decodeOk k = true ∧ (cfg.cleanup = true → env.unlinkOk k = true)) →
      (runUnits env cfg st ks).2.1 = ks.flatMap (unitEvents env cfg) := by
  intro ks
  induction ks with
  | nil => intro st _; rfl
  | cons k ks ih =>
    intro st h
    have hab : (processUnit env cfg st k).2.2 = none :=
      processUnit_no_abort env cfg st k (h k (List.mem_cons_self k ks))
    simp only [runUnits, hab]
    rw [List.flatMap_cons, processUnit_events env cfg st k,
      ih _ (fun k2 hk2 => h k2 (List.mem_cons_of_mem _ hk2))]

/-- C7: the keys processed are exactly the nested iteration dates x cycles
x lead hours; dates ascend, lead hours ascend, the whole key sequence is
in date-then-cycle-position-then-lead-hour order (cycles in list order),
and an abort-free run processes each unit to completion before the next
starts (its trace is the concatenation of whole per-unit blocks in key
order, with no interleaving). -/
theorem C7_ordering_sequential (s e : Nat) (zulus : List String)
    (hnd : zulus.Nodup) (env : Env) (cfg : Config) (st : FState)
    (hok : ∀ k ∈ mainKeys s e zulus, env.downloadOk k = true →
      env.decodeOk k = true ∧ (cfg.cleanup = true → env.unlinkOk k = true)) :
    mainKeys s e zulus
      = (dateRange s e).flatMap (fun d => zulus.flatMap fun z =>
          forecastHours.map fun h => ⟨d, z, h⟩)
    ∧ List.Pairwise (· < ·) (dateRange s e)
    ∧ List.Pairwise (· < ·) forecastHours
    ∧ List.Pairwise (keyBefore zulus) (mainKeys s e zulus)
    ∧ (runUnits env cfg st (mainKeys s e zulus)).2.1
        = (mainKeys s e zulus).flatMap (unitEvents env cfg) :=
  ⟨rfl, dateRange_pairwise s e, forecastHours_pairwise,
   mainKeys_pairwise s e zulus hnd,
   runUnits_events_concat env cfg (mainKeys s e zulus) st hok⟩

/-- C7 witness: one day, cycles ["00", "06"], all units succeeding. -/
theorem C7_witness :
    mainKeys 5 5 ["00", "06"]
      = (dateRange 5 5).flatMap (fun d => (["00", "06"] : List String).flatMap fun z =>
          forecastHours.map fun h => ⟨d, z, h⟩)
    ∧ List.Pairwise (· < ·) (dateRange 5 5)
    ∧ List.Pairwise (· < ·) forecastHours
    ∧ List.Pairwise (keyBefore ["00", "06"]) (mainKeys 5 5 ["00", "06"])
    ∧ (runUnits testEnv testCfg ⟨[], []⟩ (mainKeys 5 5 ["00", "06"])).2.1
        = (mainKeys 5 5 ["00", "06"]).flatMap (unitEvents testEnv testCfg) :=
  C7_ordering_sequential 5 5 ["00", "06"] (by decide) testEnv testCfg ⟨[], []⟩
    (fun _ _ _ => ⟨rfl, fun _ => rfl⟩)

end GfsPull
